import Mathlib

/-!
Verification development for the Meta Ad Library search proxy
(`meta_client.py`, `models.py`).

The embedding models Python/JSON values with the inductive type `JVal`
(integral numbers only; no claim depends on float arithmetic), raw upstream
records as association lists, and the fetch loop of `fetch_ads` as a step
function over an explicit loop state driven by an abstract sequence of
upstream page events.  Fallible Python operations (attribute errors on
non-dict values, JSON parse failures, pydantic validation) are modelled
with `Except String`.  The pydantic layer of `models.py` (`NormalisedAd`,
pydantic v2 semantics: `Optional[str]` fields accept only `None` or `str`
values, no int-to-str coercion, and `str_strip_whitespace = True` strips
surrounding whitespace) is modelled by `validateAd`.
-/

/-- A Python/JSON value as it can appear in a parsed upstream response.
`jtuple` is included because `_first_or_none` in the source dispatches on
tuples as well as lists. Numbers are modelled as integers. -/
inductive JVal where
  | jnull : JVal
  | jbool : Bool → JVal
  | jnum : Int → JVal
  | jstr : String → JVal
  | jlist : List JVal → JVal
  | jtuple : List JVal → JVal
  | jobj : List (String × JVal) → JVal

/-- Python truthiness of a value: `None`, `False`, `0`, the empty string and
empty containers are falsy, everything else is truthy. -/
def pyTruthy : JVal → Bool
  | .jnull => false
  | .jbool b => b
  | .jnum n => n != 0
  | .jstr s => !s.isEmpty
  | .jlist xs => !xs.isEmpty
  | .jtuple xs => !xs.isEmpty
  | .jobj fs => !fs.isEmpty

/-- Python `a or b`: the left operand when truthy, otherwise the right one. -/
def pyOr (a b : JVal) : JVal := if pyTruthy a then a else b

/-- Python `repr` of a value (used by `str` on non-string values); scalars are
rendered as CPython renders them, containers recursively. -/
def pyRepr (v : JVal) : String :=
  match v with
  | .jnull => "None"
  | .jbool true => "True"
  | .jbool false => "False"
  | .jnum n => toString n
  | .jstr s => "\x27" ++ s ++ "\x27"
  | .jlist xs => "[" ++ String.intercalate ", " (xs.attach.map fun x => pyRepr x.1) ++ "]"
  | .jtuple xs =>
      "(" ++ String.intercalate ", " (xs.attach.map fun x => pyRepr x.1) ++
        (if xs.length = 1 then ",)" else ")")
  | .jobj fs =>
      "\x7b" ++
        String.intercalate ", "
          (fs.attach.map fun f => "\x27" ++ f.1.1 ++ "\x27: " ++ pyRepr f.1.2) ++
      "\x7d"
termination_by sizeOf v
decreasing_by
  · simp_wf
    have h := List.sizeOf_lt_of_mem x.2
    omega
  · simp_wf
    have h := List.sizeOf_lt_of_mem x.2
    omega
  · simp_wf
    have h1 := List.sizeOf_lt_of_mem f.2
    have h2 : sizeOf (f.1.2) < sizeOf (f.1) := by
      obtain ⟨⟨a, b⟩, hf⟩ := f
      simp
    omega

/-- Python `str` of a value: a string maps to itself, anything else to its
`repr`. -/
def pyStr (v : JVal) : String :=
  match v with
  | .jstr s => s
  | v => pyRepr v

/-- A raw upstream record: a JSON object, modelled as an association list. -/
def RawRecord := List (String × JVal)

/-- Python `record.get(key)` on a dict: the stored value, `None` when the key
is missing.  A stored `None` and a missing key are indistinguishable. -/
def recGet (record : RawRecord) (key : String) : JVal :=
  (List.lookup key record).getD .jnull

/-- Embeds `_first_or_none` from `meta_client.py`: the first element of a
list or tuple (`None` when empty), a string unchanged, `None` for any other
shape. -/
def _first_or_none (values : JVal) : JVal :=
  match values with
  | .jlist vs => (vs.head?).getD .jnull
  | .jtuple vs => (vs.head?).getD .jnull
  | .jstr s => .jstr s
  | _ => .jnull

/-- The field values computed by `_normalise_record` in `meta_client.py`
before they are handed to the pydantic `NormalisedAd` constructor. -/
structure PreAd where
  advertiser : JVal
  title : JVal
  body : JVal
  creative_url : JVal
  first_seen : JVal
  last_seen : JVal
  status : String
  platforms : JVal
  snapshot_url : JVal

/-- Embeds the field computations of `_normalise_record`
(`meta_client.py`, lines 74-85): best-effort extraction from the raw record,
`stop_time` collapsed to `None` when falsy, `last_seen = stop_time or
creation_time`, `status` derived from `stop_time`, `publisher_platforms`
wrapped into a one-element list of its `str` form when it is present and not
a list. -/
def _normalise_record_fields (record : RawRecord) : PreAd :=
  let advertiser := recGet record "page_name"
  let title := _first_or_none (recGet record "ad_creative_link_titles")
  let body := _first_or_none (recGet record "ad_creative_bodies")
  let snapshot_url := recGet record "ad_snapshot_url"
  let start_time := recGet record "ad_delivery_start_time"
  let stop_time := pyOr (recGet record "ad_delivery_stop_time") .jnull
  let creation_time := recGet record "ad_creation_time"
  let last_seen := pyOr stop_time creation_time
  let status := if pyTruthy stop_time then "inactive" else "active"
  let platforms :=
    match recGet record "publisher_platforms" with
    | .jnull => .jnull
    | .jlist xs => .jlist xs
    | v => .jlist [.jstr (pyStr v)]
  { advertiser := advertiser
    title := title
    body := body
    creative_url := snapshot_url
    first_seen := start_time
    last_seen := last_seen
    status := status
    platforms := platforms
    snapshot_url := snapshot_url }

/-- The validated output model (`NormalisedAd` in `models.py`):
all fields optional strings except the constant `source` tag, the
`active`/`inactive` status and the platform list. -/
structure NormalisedAd where
  source : String
  advertiser : Option String
  title : Option String
  body : Option String
  creative_url : Option String
  first_seen : Option String
  last_seen : Option String
  status : Option String
  platforms : Option (List String)
  snapshot_url : Option String
deriving DecidableEq

/-- ASCII whitespace as Python `str.strip` removes it. -/
def pyIsSpace (c : Char) : Bool :=
  c = ' ' || c = '\t' || c = '\n' || c = '\r' || c = '\x0b' || c = '\x0c'

/-- Python `str.strip()` (the effect of `str_strip_whitespace = True`):
drop leading and trailing whitespace. -/
def pyStrip (s : String) : String :=
  String.mk (((s.data.dropWhile pyIsSpace).reverse.dropWhile pyIsSpace).reverse)

/-- Pydantic v2 validation of an `Optional[str]` field with
`str_strip_whitespace = True`: `None` passes, a string is stripped, any
other value raises a `ValidationError` (pydantic v2 performs no
int-to-str coercion). -/
def validateOptStr (v : JVal) : Except String (Option String) :=
  match v with
  | .jnull => .ok none
  | .jstr s => .ok (some (pyStrip s))
  | _ => .error "ValidationError"

/-- Pydantic validation of the `Optional[Literal["active","inactive"]]`
status field. -/
def validateStatus (s : String) : Except String (Option String) :=
  if s = "active" || s = "inactive" then .ok (some s) else .error "ValidationError"

/-- Pydantic validation of one element of the `List[str]` platforms field. -/
def validateStrElem (v : JVal) : Except String String :=
  match v with
  | .jstr s => .ok (pyStrip s)
  | _ => .error "ValidationError"

/-- Pydantic validation of the elements of the platforms list. -/
def validateStrList : List JVal → Except String (List String)
  | [] => .ok []
  | v :: vs => do
      let s ← validateStrElem v
      let ss ← validateStrList vs
      .ok (s :: ss)

/-- Pydantic validation of the `Optional[List[str]]` platforms field. -/
def validatePlatforms (v : JVal) : Except String (Option (List String)) :=
  match v with
  | .jnull => .ok none
  | .jlist xs => do
      let ss ← validateStrList xs
      .ok (some ss)
  | .jtuple xs => do
      let ss ← validateStrList xs
      .ok (some ss)
  | _ => .error "ValidationError"

/-- Pydantic construction of `NormalisedAd` from the computed field values:
validates every field, raising (`Except.error`) when any value does not fit
its declared type. -/
def validateAd (p : PreAd) : Except String NormalisedAd := do
  let advertiser ← validateOptStr p.advertiser
  let title ← validateOptStr p.title
  let body ← validateOptStr p.body
  let creative_url ← validateOptStr p.creative_url
  let first_seen ← validateOptStr p.first_seen
  let last_seen ← validateOptStr p.last_seen
  let status ← validateStatus p.status
  let platforms ← validatePlatforms p.platforms
  let snapshot_url ← validateOptStr p.snapshot_url
  .ok { source := "meta"
        advertiser := advertiser
        title := title
        body := body
        creative_url := creative_url
        first_seen := first_seen
        last_seen := last_seen
        status := status
        platforms := platforms
        snapshot_url := snapshot_url }

/-- Embeds `_normalise_record` from `meta_client.py` including the pydantic
construction: a non-dict record raises an `AttributeError` at the first
`record.get` call; a dict record has its fields extracted best-effort and
then validated by pydantic. -/
def _normalise_record (v : JVal) : Except String NormalisedAd :=
  match v with
  | .jobj fs => validateAd (_normalise_record_fields fs)
  | _ => .error "AttributeError"

/-- The sort key of `_sort_ads`: `(ad.last_seen or "", ad.first_seen or "")`.
A missing value and the (falsy) empty string both yield `""`. -/
def adKey (a : NormalisedAd) : String × String :=
  (a.last_seen.getD "", a.first_seen.getD "")

/-- Lexicographic order on the composite sort key, as Python compares
tuples of strings. -/
def keyLexLe (x y : String × String) : Prop :=
  x.1 < y.1 ∨ (x.1 = y.1 ∧ x.2 ≤ y.2)

instance : DecidableRel keyLexLe := fun x y => by
  unfold keyLexLe; infer_instance

/-- The comparison used by the descending sort: `a` may come before `b`
when the key of `a` is at least the key of `b`. -/
def adBefore (a b : NormalisedAd) : Prop :=
  keyLexLe (adKey b) (adKey a)

instance : DecidableRel adBefore := fun a b => by
  unfold adBefore; infer_instance

instance : IsTotal NormalisedAd adBefore where
  total a b := by
    unfold adBefore keyLexLe
    rcases lt_trichotomy (adKey a).1 (adKey b).1 with h | h | h
    · exact Or.inr (Or.inl h)
    · rcases le_total (adKey a).2 (adKey b).2 with h2 | h2
      · exact Or.inr (Or.inr ⟨h, h2⟩)
      · exact Or.inl (Or.inr ⟨h.symm, h2⟩)
    · exact Or.inl (Or.inl h)

instance : IsTrans NormalisedAd adBefore where
  trans a b c hab hbc := by
    unfold adBefore keyLexLe at *
    rcases hab with h1 | ⟨h1, h1b⟩ <;> rcases hbc with h2 | ⟨h2, h2b⟩
    · exact Or.inl (lt_trans h2 h1)
    · exact Or.inl (h2 ▸ h1)
    · exact Or.inl (h1 ▸ h2)
    · exact Or.inr ⟨h2.trans h1, le_trans h2b h1b⟩

instance : IsRefl NormalisedAd adBefore where
  refl _ := Or.inr ⟨rfl, le_refl _⟩

/-- Embeds `_sort_ads` from `meta_client.py`: `sorted(ads, key=..., reverse=True)`
is a stable descending sort by the composite key; a stable descending sort is
implemented here as insertion sort with the reflexive comparison `adBefore`,
which is extensionally the behaviour of the stable Python sort. -/
def _sort_ads (ads : List NormalisedAd) : List NormalisedAd :=
  List.insertionSort adBefore ads

/-- An HTTP response as seen by `fetch_ads`: the status code, the result of
trying to parse the body as JSON (`none` when `response.json()` raises
`ValueError`), and the raw body text. -/
structure HttpResponse where
  status : Nat
  body : Option JVal
  text : String

/-- One upstream page request either returns a response or raises one of the
httpx timeout exceptions (connect, read, write, pool or generic timeout are
all caught by the same handler and carry a description string). -/
inductive PageEvent where
  | resp : HttpResponse → PageEvent
  | tmo : String → PageEvent

/-- The error kinds surfaced by `fetch_ads`: `MetaAPIError` (status code,
raw provider code, raw provider message), `MetaTimeoutError`, and an
uncaught Python exception such as `AttributeError`/`ValueError`/pydantic
`ValidationError` escaping the function. -/
inductive FetchError where
  | apiError : Nat → JVal → JVal → FetchError
  | timeoutError : String → FetchError
  | pyError : String → FetchError

/-- Python `obj.get(key, default)`: raises `AttributeError` when `obj` is
not a dict. -/
def pyGet (o : JVal) (key : String) (default : JVal) : Except String JVal :=
  match o with
  | .jobj fs => .ok ((List.lookup key fs).getD default)
  | _ => .error "AttributeError"

/-- Python `list.extend(data)`: iterates `data`, so a list or tuple extends
by its elements, a string by its characters, a dict by its keys, and any
non-iterable value raises `TypeError`. -/
def pyExtend (data : JVal) : Except String (List JVal) :=
  match data with
  | .jlist ds => .ok ds
  | .jtuple ds => .ok ds
  | .jstr s => .ok (s.data.map fun c => .jstr (String.mk [c]))
  | .jobj fs => .ok (fs.map fun f => .jstr f.1)
  | _ => .error "TypeError"

/-- Embeds the error branch of `fetch_ads` (lines 141-151): on a non-success
status the body is parsed as JSON, falling back to
`{"error": {"message": response.text}}` when parsing fails, and the
`error.code` (default `None`) and `error.message` (default "Meta API error")
members are read; a non-dict payload or non-dict error member raises
`AttributeError`. -/
def parseApiError (r : HttpResponse) : Except String (JVal × JVal) := do
  let payload := r.body.getD (.jobj [("error", .jobj [("message", .jstr r.text)])])
  let errv ← pyGet payload "error" (.jobj [])
  let code ← pyGet errv "code" .jnull
  let message ← pyGet errv "message" (.jstr "Meta API error")
  .ok (code, message)

/-- The mutable loop state of `fetch_ads`: the accumulated raw records, the
pagination cursor from the previous page, and the number of pages requested
so far. -/
structure LoopState where
  rawRecords : List JVal
  nextUrl : JVal
  pageCount : Nat

/-- The outcome of one iteration of the `fetch_ads` loop. -/
inductive StepRes where
  | cont : LoopState → StepRes
  | done : List JVal → Nat → StepRes
  | fail : FetchError → Nat → StepRes

/-- The HTTP success status `fetch_ads` requires (`httpx.codes.OK`). -/
def HTTP_OK : Nat := 200

/-- One iteration of the `fetch_ads` while-loop (lines 133-162), driven by
`upstream`, the sequence of upstream page events indexed by request number:
issue the request, raise `MetaAPIError` on a non-success status, extend the
accumulator with the page data, stop when the accumulated count reaches
`limit`, otherwise follow `paging.next`, stopping when it is falsy. -/
def fetchStep (upstream : Nat → PageEvent) (limit : Nat) (s : LoopState) : StepRes :=
  match upstream s.pageCount with
  | .tmo d => .fail (.timeoutError d) s.pageCount
  | .resp r =>
    if r.status ≠ HTTP_OK then
      match parseApiError r with
      | .ok (code, message) => .fail (.apiError r.status code message) (s.pageCount + 1)
      | .error e => .fail (.pyError e) (s.pageCount + 1)
    else
      match r.body with
      | none => .fail (.pyError "ValueError") (s.pageCount + 1)
      | some payload =>
        match pyGet payload "data" (.jlist []) with
        | .error e => .fail (.pyError e) (s.pageCount + 1)
        | .ok dataVal =>
          match pyExtend dataVal with
          | .error e => .fail (.pyError e) (s.pageCount + 1)
          | .ok ds =>
            let raws := s.rawRecords ++ ds
            if raws.length ≥ limit then .done raws (s.pageCount + 1)
            else
              match pyGet payload "paging" (.jobj []) with
              | .error e => .fail (.pyError e) (s.pageCount + 1)
              | .ok paging =>
                match pyGet paging "next" .jnull with
                | .error e => .fail (.pyError e) (s.pageCount + 1)
                | .ok nxt =>
                  if pyTruthy nxt then .cont ⟨raws, nxt, s.pageCount + 1⟩
                  else .done raws (s.pageCount + 1)

/-- Runs the `fetch_ads` loop for at most `fuel` iterations (the Python loop
has no iteration bound; `none` models a run that would still be looping). -/
def runLoop (upstream : Nat → PageEvent) (limit : Nat) :
    Nat → LoopState → Option (Except FetchError (List JVal) × Nat)
  | 0, _ => none
  | fuel + 1, s =>
    match fetchStep upstream limit s with
    | .done raws pages => some (.ok raws, pages)
    | .fail e pages => some (.error e, pages)
    | .cont s2 => runLoop upstream limit fuel s2

/-- The initial loop state of `fetch_ads`. -/
def initState : LoopState := ⟨[], .jnull, 0⟩

/-- Normalises the accumulated raw records in order; the first pydantic
`ValidationError` or `AttributeError` propagates. -/
def normaliseList : List JVal → Except String (List NormalisedAd)
  | [] => .ok []
  | r :: rs => do
    let a ← _normalise_record r
    let rest ← normaliseList rs
    .ok (a :: rest)

/-- Embeds `fetch_ads` from `meta_client.py`: run the pagination loop, then
truncate the accumulator to the first `limit` records (guarded by the
redundant non-empty check of the source), normalise each record and sort.
Loop errors propagate unchanged; an exception during normalisation escapes
as a `pyError`. -/
def fetch_ads (upstream : Nat → PageEvent) (limit : Nat) (fuel : Nat) :
    Option (Except FetchError (List NormalisedAd)) :=
  match runLoop upstream limit fuel initState with
  | none => none
  | some (.error e, _) => some (.error e)
  | some (.ok raws, _) =>
    let raws2 := if raws.isEmpty then raws else raws.take limit
    match normaliseList raws2 with
    | .error msg => some (.error (.pyError msg))
    | .ok nads => some (.ok (_sort_ads nads))

/-! ### Helper lemmas about stable insertion sort -/

theorem filter_orderedInsert_of {α : Type} (r : α → α → Prop) [DecidableRel r]
    (p : α → Bool) (a : α) (l : List α)
    (h : p a = true → ∀ b ∈ l, p b = true → r a b) :
    (List.orderedInsert r a l).filter p =
      if p a then a :: l.filter p else l.filter p := by
  induction l with
  | nil =>
    by_cases hpa : p a <;> simp [List.orderedInsert, List.filter, hpa]
  | cons b bs ih =>
    by_cases hr : r a b
    · rw [List.orderedInsert, if_pos hr]
      by_cases hpa : p a <;> simp [List.filter_cons, hpa]
    · rw [List.orderedInsert, if_neg hr]
      by_cases hpa : p a
      · have hpb : p b = false := by
          cases hb : p b
          · rfl
          · exact absurd (h hpa b (List.mem_cons_self b bs) hb) hr
        have ih2 := ih (fun ha b2 hb2 hpb2 => h ha b2 (List.mem_cons_of_mem b hb2) hpb2)
        simp [List.filter_cons, hpa, hpb, ih2]
      · have ih2 := ih (fun ha => absurd ha (by simp [hpa]))
        by_cases hpb : p b <;> simp [List.filter_cons, hpa, hpb, ih2]

theorem filter_insertionSort_of {α : Type} (r : α → α → Prop) [DecidableRel r]
    (p : α → Bool) (hp : ∀ a b, p a = true → p b = true → r a b) :
    ∀ l : List α, (List.insertionSort r l).filter p = l.filter p := by
  intro l
  induction l with
  | nil => rfl
  | cons a l ih =>
    rw [List.insertionSort,
      filter_orderedInsert_of r p a _ (fun hpa b _ hpb => hp a b hpa hpb)]
    by_cases hpa : p a <;> simp [List.filter_cons, hpa, ih]

/-! ### Claim theorems about the normaliser and the sorter -/

/-- C3: `_sort_ads` is a pure function that orders normalised ads descending
by the composite key (`last_seen` with `None` as the empty string, then
`first_seen` likewise), comparing the raw timestamp strings
lexicographically, and it is stable: the output is a permutation of the
input, adjacent elements are in descending key order (`adBefore`), and for
every key value the records carrying it appear in their input order. -/
theorem sort_ads_descending_stable (ads : List NormalisedAd) :
    (_sort_ads ads).Perm ads
    ∧ (_sort_ads ads).Sorted adBefore
    ∧ ∀ k : String × String,
        (_sort_ads ads).filter (fun a => adKey a = k)
          = ads.filter (fun a => adKey a = k) := by
  refine ⟨List.perm_insertionSort adBefore ads,
          List.sorted_insertionSort adBefore ads, ?_⟩
  intro k
  apply filter_insertionSort_of
  intro a b ha hb
  have hka : adKey a = k := by simpa using ha
  have hkb : adKey b = k := by simpa using hb
  unfold adBefore
  rw [hka, hkb]
  exact Or.inr ⟨rfl, le_refl _⟩

/-- C4: for every raw record the computed fields of `_normalise_record`
satisfy: `status = "inactive"` exactly when the raw delivery-stop time is
truthy (not `None`, not empty/falsy), `status = "active"` otherwise, and
`last_seen` is the stop time when truthy, else the raw creation time.
`pyTruthy` formalises "neither null nor empty/falsy": the last conjuncts
record that `None` and the empty string are falsy. -/
theorem normalise_status_last_seen (record : RawRecord) :
    ((_normalise_record_fields record).status = "inactive"
        ↔ pyTruthy (recGet record "ad_delivery_stop_time") = true)
    ∧ ((_normalise_record_fields record).status = "active"
        ↔ pyTruthy (recGet record "ad_delivery_stop_time") = false)
    ∧ (_normalise_record_fields record).last_seen =
        (if pyTruthy (recGet record "ad_delivery_stop_time")
         then recGet record "ad_delivery_stop_time"
         else recGet record "ad_creation_time")
    ∧ pyTruthy .jnull = false
    ∧ pyTruthy (.jstr "") = false := by
  have hOr : ∀ x y : JVal, pyOr x y = if pyTruthy x then x else y := fun x y => rfl
  have hnull : pyTruthy .jnull = false := rfl
  have hempty : pyTruthy (.jstr "") = false := rfl
  cases h : pyTruthy (recGet record "ad_delivery_stop_time") <;>
    simp [_normalise_record_fields, hOr, h, hnull, hempty]

/-- C5: the first-or-none rule maps a non-empty list to its first element,
the empty list to `None`, a plain string to itself, and any other shape
(object, number, boolean, `None`) to `None`; `_normalise_record` applies
the very same function to the raw title field and to the raw body field. -/
theorem first_or_none_rule :
    (∀ (x : JVal) (xs : List JVal), _first_or_none (.jlist (x :: xs)) = x)
    ∧ _first_or_none (.jlist []) = .jnull
    ∧ (∀ s, _first_or_none (.jstr s) = .jstr s)
    ∧ (∀ fs, _first_or_none (.jobj fs) = .jnull)
    ∧ (∀ n, _first_or_none (.jnum n) = .jnull)
    ∧ (∀ b, _first_or_none (.jbool b) = .jnull)
    ∧ _first_or_none .jnull = .jnull
    ∧ (∀ record : RawRecord,
        (_normalise_record_fields record).title
            = _first_or_none (recGet record "ad_creative_link_titles")
        ∧ (_normalise_record_fields record).body
            = _first_or_none (recGet record "ad_creative_bodies")) := by
  refine ⟨fun x xs => rfl, rfl, fun s => rfl, fun fs => rfl, fun n => rfl,
          fun b => rfl, rfl, fun record => ⟨rfl, rfl⟩⟩

/-- C6 (code bug): the claim says `_normalise_record` is total and never
raises, but the pydantic `NormalisedAd` model rejects non-string values in
`Optional[str]` fields (pydantic v2 performs no int-to-str coercion), so the
raw record `{"page_name": 42}` makes the constructor raise a
`ValidationError` instead of degrading the field to `None`. -/
theorem normalise_record_raises_on_int_page_name :
    _normalise_record (.jobj [("page_name", .jnum 42)]) = .error "ValidationError" := by
  rfl

/-! ### Helper lemmas about the fetch loop -/

theorem fetch_ads_of_runLoop_error (u : Nat → PageEvent) (limit fuel pages : Nat)
    (e : FetchError) (h : runLoop u limit fuel initState = some (.error e, pages)) :
    fetch_ads u limit fuel = some (.error e) := by
  unfold fetch_ads
  rw [h]

theorem runLoop_of_step_fail (u : Nat → PageEvent) (limit fuel : Nat) (s : LoopState)
    (e : FetchError) (pages : Nat) (h : fetchStep u limit s = .fail e pages) :
    runLoop u limit (fuel + 1) s = some (.error e, pages) := by
  unfold runLoop
  rw [h]

theorem runLoop_of_step_done (u : Nat → PageEvent) (limit fuel : Nat) (s : LoopState)
    (raws : List JVal) (pages : Nat) (h : fetchStep u limit s = .done raws pages) :
    runLoop u limit (fuel + 1) s = some (.ok raws, pages) := by
  unfold runLoop
  rw [h]

theorem fetchStep_apiError (u : Nat → PageEvent) (limit : Nat) (s : LoopState)
    (r : HttpResponse) (code message : JVal)
    (hresp : u s.pageCount = .resp r) (hstatus : r.status ≠ HTTP_OK)
    (hparse : parseApiError r = .ok (code, message)) :
    fetchStep u limit s = .fail (.apiError r.status code message) (s.pageCount + 1) := by
  unfold fetchStep
  simp only [hresp]
  rw [if_pos hstatus]
  simp only [hparse]

theorem fetchStep_apiError_parseFail (u : Nat → PageEvent) (limit : Nat) (s : LoopState)
    (r : HttpResponse) (e : String)
    (hresp : u s.pageCount = .resp r) (hstatus : r.status ≠ HTTP_OK)
    (hparse : parseApiError r = .error e) :
    fetchStep u limit s = .fail (.pyError e) (s.pageCount + 1) := by
  unfold fetchStep
  simp only [hresp]
  rw [if_pos hstatus]
  simp only [hparse]

theorem fetchStep_success (u : Nat → PageEvent) (limit : Nat) (s : LoopState)
    (r : HttpResponse) (payload dataVal : JVal) (ds : List JVal)
    (hresp : u s.pageCount = .resp r) (hstatus : r.status = HTTP_OK)
    (hbody : r.body = some payload)
    (hdata : pyGet payload "data" (.jlist []) = .ok dataVal)
    (hext : pyExtend dataVal = .ok ds) :
    fetchStep u limit s =
      (if s.rawRecords.length + ds.length ≥ limit
       then .done (s.rawRecords ++ ds) (s.pageCount + 1)
       else
         match pyGet payload "paging" (.jobj []) with
         | .error e => .fail (.pyError e) (s.pageCount + 1)
         | .ok paging =>
           match pyGet paging "next" .jnull with
           | .error e => .fail (.pyError e) (s.pageCount + 1)
           | .ok nxt =>
             if pyTruthy nxt then .cont ⟨s.rawRecords ++ ds, nxt, s.pageCount + 1⟩
             else .done (s.rawRecords ++ ds) (s.pageCount + 1)) := by
  unfold fetchStep
  simp only [hresp]
  rw [if_neg (by simp [hstatus])]
  simp only [hbody, hdata, hext, List.length_append]

/-! ### Claim theorems about pagination and error handling -/

/-- C1: the fetch loop stops as soon as the accumulated record count reaches
`limit` — returning without inspecting the paging cursor and without issuing
a further request — and stops when the cursor of the page is falsy even when
the limit is unmet; an empty first page with no cursor makes `fetch_ads`
return the empty result, not an error. -/
theorem fetch_pagination_stop_conditions :
    (∀ (u : Nat → PageEvent) (limit fuel : Nat) (s : LoopState) (r : HttpResponse)
        (payload dataVal : JVal) (ds : List JVal),
        u s.pageCount = .resp r → r.status = HTTP_OK → r.body = some payload →
        pyGet payload "data" (.jlist []) = .ok dataVal → pyExtend dataVal = .ok ds →
        limit ≤ s.rawRecords.length + ds.length →
        runLoop u limit (fuel + 1) s = some (.ok (s.rawRecords ++ ds), s.pageCount + 1))
    ∧ (∀ (u : Nat → PageEvent) (limit fuel : Nat) (s : LoopState) (r : HttpResponse)
        (payload dataVal paging nxt : JVal) (ds : List JVal),
        u s.pageCount = .resp r → r.status = HTTP_OK → r.body = some payload →
        pyGet payload "data" (.jlist []) = .ok dataVal → pyExtend dataVal = .ok ds →
        s.rawRecords.length + ds.length < limit →
        pyGet payload "paging" (.jobj []) = .ok paging →
        pyGet paging "next" .jnull = .ok nxt →
        pyTruthy nxt = false →
        runLoop u limit (fuel + 1) s = some (.ok (s.rawRecords ++ ds), s.pageCount + 1))
    ∧ (∀ (u : Nat → PageEvent) (limit fuel : Nat) (t : String),
        1 ≤ limit →
        u 0 = .resp ⟨HTTP_OK, some (.jobj [("data", .jlist [])]), t⟩ →
        fetch_ads u limit (fuel + 1) = some (.ok [])) := by
  refine ⟨?_, ?_, ?_⟩
  · intro u limit fuel s r payload dataVal ds hresp hstatus hbody hdata hext hlim
    apply runLoop_of_step_done
    rw [fetchStep_success u limit s r payload dataVal ds hresp hstatus hbody hdata hext,
      if_pos hlim]
  · intro u limit fuel s r payload dataVal paging nxt ds hresp hstatus hbody hdata hext
      hlt hpaging hnxt hfalsy
    apply runLoop_of_step_done
    rw [fetchStep_success u limit s r payload dataVal ds hresp hstatus hbody hdata hext,
      if_neg (by omega)]
    simp only [hpaging, hnxt]
    rw [if_neg (by simp [hfalsy])]
  · intro u limit fuel t hlim hresp
    have hstep : fetchStep u limit initState = .done [] 1 := by
      rw [fetchStep_success u limit initState ⟨HTTP_OK, some (.jobj [("data", .jlist [])]), t⟩
            (.jobj [("data", .jlist [])]) (.jlist []) [] hresp rfl rfl rfl rfl]
      rw [if_neg (by simp [initState]; omega)]
      rfl
    have hrun : runLoop u limit (fuel + 1) initState = some (.ok [], 1) :=
      runLoop_of_step_done u limit fuel initState [] 1 hstep
    unfold fetch_ads
    rw [hrun]
    rfl

/-- C2: a successful fetch returns exactly the first `limit` accumulated raw
records in arrival order — truncation happens before normalisation and before
sorting — normalised and then sorted; the truncated list is the prefix of
length `min limit total` of the arrived records, so a record arriving after
the limit is reached is discarded even if it would sort first. -/
theorem fetch_truncates_before_normalise_and_sort
    (u : Nat → PageEvent) (limit fuel pages : Nat) (raws : List JVal)
    (nads : List NormalisedAd)
    (hrun : runLoop u limit fuel initState = some (.ok raws, pages))
    (hnorm : normaliseList (raws.take limit) = .ok nads) :
    fetch_ads u limit fuel = some (.ok (_sort_ads nads))
    ∧ (raws.take limit).length = min limit raws.length
    ∧ raws.take limit ++ raws.drop limit = raws := by
  refine ⟨?_, List.length_take limit raws, List.take_append_drop limit raws⟩
  unfold fetch_ads
  simp only [hrun]
  have htrunc : (if raws.isEmpty then raws else raws.take limit) = raws.take limit := by
    cases raws <;> simp
  rw [htrunc, hnorm]

/-- C9: a transport-level timeout on any page request (the five httpx
timeout exception types are caught by one handler) aborts the whole
operation immediately — no further page is requested — and `fetch_ads`
surfaces a timeout error carrying the underlying description; the
already-accumulated records of the state are discarded, the error result
carries no data. -/
theorem fetch_timeout_aborts_discarding_partial :
    (∀ (u : Nat → PageEvent) (limit fuel : Nat) (s : LoopState) (d : String),
        u s.pageCount = .tmo d →
        runLoop u limit (fuel + 1) s = some (.error (.timeoutError d), s.pageCount))
    ∧ (∀ (u : Nat → PageEvent) (limit fuel pages : Nat) (d : String),
        runLoop u limit fuel initState = some (.error (.timeoutError d), pages) →
        fetch_ads u limit fuel = some (.error (.timeoutError d))) := by
  constructor
  · intro u limit fuel s d htmo
    apply runLoop_of_step_fail
    unfold fetchStep
    simp only [htmo]
  · intro u limit fuel pages d hrun
    exact fetch_ads_of_runLoop_error u limit fuel pages _ hrun

/-- C10 (amended): when a page after one or more earlier successful pages (a
state with a non-empty accumulator) answers with a non-success HTTP status,
no partial data is ever returned — the records accumulated from the earlier
pages are discarded exactly as for timeouts.  The error surfaced is the
upstream error (status, code, message) when the error body fails to parse as
JSON or parses to a JSON object whose `error` member (when present) is an
object (the cases where `parseApiError` succeeds); for any other
JSON-parseable body shape an `AttributeError` escapes instead of the
upstream error, still carrying no data.  `fetch_ads` passes either failure
through unchanged. -/
theorem fetch_api_error_discards_partial :
    (∀ (u : Nat → PageEvent) (limit fuel : Nat) (s : LoopState) (r : HttpResponse)
        (code message : JVal),
        u s.pageCount = .resp r → r.status ≠ HTTP_OK →
        parseApiError r = .ok (code, message) →
        s.rawRecords ≠ [] →
        runLoop u limit (fuel + 1) s
          = some (.error (.apiError r.status code message), s.pageCount + 1))
    ∧ (∀ (u : Nat → PageEvent) (limit fuel : Nat) (s : LoopState) (r : HttpResponse)
        (e : String),
        u s.pageCount = .resp r → r.status ≠ HTTP_OK →
        parseApiError r = .error e →
        s.rawRecords ≠ [] →
        runLoop u limit (fuel + 1) s
          = some (.error (.pyError e), s.pageCount + 1))
    ∧ (∀ (u : Nat → PageEvent) (limit fuel pages st : Nat) (code message : JVal),
        runLoop u limit fuel initState = some (.error (.apiError st code message), pages) →
        fetch_ads u limit fuel = some (.error (.apiError st code message)))
    ∧ (∀ (u : Nat → PageEvent) (limit fuel pages : Nat) (e : String),
        runLoop u limit fuel initState = some (.error (.pyError e), pages) →
        fetch_ads u limit fuel = some (.error (.pyError e))) := by
  refine ⟨?_, ?_, ?_, ?_⟩
  · intro u limit fuel s r code message hresp hstatus hparse _
    exact runLoop_of_step_fail u limit fuel s _ _
      (fetchStep_apiError u limit s r code message hresp hstatus hparse)
  · intro u limit fuel s r e hresp hstatus hparse _
    exact runLoop_of_step_fail u limit fuel s _ _
      (fetchStep_apiError_parseFail u limit s r e hresp hstatus hparse)
  · intro u limit fuel pages st code message hrun
    exact fetch_ads_of_runLoop_error u limit fuel pages _ hrun
  · intro u limit fuel pages e hrun
    exact fetch_ads_of_runLoop_error u limit fuel pages _ hrun

/-- Discriminator for the upstream-error kind (`MetaAPIError`). -/
def isApiError : FetchError → Bool
  | .apiError _ _ _ => true
  | _ => false

/-- An upstream that always answers 400 with a body that parses as the JSON
array `[]`: valid JSON, but not an object. -/
def c8Upstream : Nat → PageEvent :=
  fun _ => .resp ⟨400, some (.jlist []), "[]"⟩

/-- C8 counterexample: a non-success response whose body parses as a JSON
array makes `payload.get("error", {})` raise `AttributeError`, so
`fetch_ads` does not fail with the upstream error (`MetaAPIError`) the claim
promises for every non-success response — the escaping exception is an
`AttributeError`, which is not an upstream error. -/
theorem fetch_api_error_shape_counterexample :
    fetch_ads c8Upstream 5 5 = some (.error (.pyError "AttributeError"))
    ∧ isApiError (.pyError "AttributeError") = false :=
  ⟨rfl, rfl⟩

/-- C8 (amended): for every page response with a non-success HTTP status
whose body either fails to parse as JSON or parses to a JSON object whose
`error` member (when present) is itself an object, the loop raises the
upstream error immediately and `fetch_ads` surfaces it: it carries the
upstream status code, the provider `error.code` (`None` when absent) and the
provider `error.message` (default "Meta API error" when absent); when the
body does not parse as JSON the default body
`{"error": {"message": <raw text>}}` is used, so the code is `None` and the
message is the raw text. -/
theorem fetch_api_error_structured :
    (∀ (u : Nat → PageEvent) (limit fuel : Nat) (s : LoopState) (r : HttpResponse)
        (code message : JVal),
        u s.pageCount = .resp r → r.status ≠ HTTP_OK →
        parseApiError r = .ok (code, message) →
        runLoop u limit (fuel + 1) s
          = some (.error (.apiError r.status code message), s.pageCount + 1))
    ∧ (∀ (r : HttpResponse) (pfs efs : List (String × JVal)),
        r.body = some (.jobj pfs) → List.lookup "error" pfs = some (.jobj efs) →
        parseApiError r = .ok ((List.lookup "code" efs).getD .jnull,
                               (List.lookup "message" efs).getD (.jstr "Meta API error")))
    ∧ (∀ r : HttpResponse, r.body = none →
        parseApiError r = .ok (.jnull, .jstr r.text))
    ∧ (∀ (r : HttpResponse) (pfs : List (String × JVal)),
        r.body = some (.jobj pfs) → List.lookup "error" pfs = none →
        parseApiError r = .ok (.jnull, .jstr "Meta API error"))
    ∧ (∀ (u : Nat → PageEvent) (limit fuel pages st : Nat) (code message : JVal),
        runLoop u limit fuel initState = some (.error (.apiError st code message), pages) →
        fetch_ads u limit fuel = some (.error (.apiError st code message))) := by
  refine ⟨?_, ?_, ?_, ?_, ?_⟩
  · intro u limit fuel s r code message hresp hstatus hparse
    exact runLoop_of_step_fail u limit fuel s _ _
      (fetchStep_apiError u limit s r code message hresp hstatus hparse)
  · intro r pfs efs hbody herr
    obtain ⟨st, body, text⟩ := r
    simp only at hbody
    subst hbody
    simp only [parseApiError, pyGet, herr, Option.getD, Except.bind]
    rfl
  · intro r hbody
    obtain ⟨st, body, text⟩ := r
    simp only at hbody
    subst hbody
    rfl
  · intro r pfs hbody herr
    obtain ⟨st, body, text⟩ := r
    simp only at hbody
    subst hbody
    simp only [parseApiError, pyGet, herr, Option.getD, Except.bind]
    rfl
  · intro u limit fuel pages st code message hrun
    exact fetch_ads_of_runLoop_error u limit fuel pages _ hrun

/-! ### The rate limiter -/

/-- The configured request budget per window (`RATE_LIMIT_PER_SECOND`). -/
def RATE_LIMIT_PER_SECOND : Nat := 5

/-- The rolling window length in seconds (`RATE_LIMIT_WINDOW`). -/
def RATE_LIMIT_WINDOW : ℚ := 1

/-- Lower bound of the uniform jitter range (`RATE_LIMIT_JITTER_RANGE`). -/
def RATE_LIMIT_JITTER_LO : ℚ := 0.05

/-- Upper bound of the uniform jitter range (`RATE_LIMIT_JITTER_RANGE`). -/
def RATE_LIMIT_JITTER_HI : ℚ := 0.15

/-- The pruning while-loop of `_wait_for_rate_limit_slot`: pop entries from
the front of the timestamp deque while the oldest one left the window. -/
def pruneStamps (now : ℚ) : List ℚ → List ℚ
  | [] => []
  | t :: ts => if RATE_LIMIT_WINDOW ≤ now - t then pruneStamps now ts else t :: ts

/-- The outcome of one attempt inside `_wait_for_rate_limit_slot`: either the
slot is granted, or the caller must sleep for the given duration and retry. -/
inductive RLDecision where
  | granted : RLDecision
  | waitFor : ℚ → RLDecision

/-- One attempt of the `_wait_for_rate_limit_slot` loop body, executed under
the lock at monotonic time `now` with the drawn `jitter`: prune stale
timestamps; if fewer than the budget remain, record `now` and grant;
otherwise compute the wait until the oldest entry exits the window, add the
jitter, and report the sleep duration.  The returned list is the deque after
the attempt. -/
def _wait_for_rate_limit_slot_step (stamps : List ℚ) (now jitter : ℚ) :
    RLDecision × List ℚ :=
  let pruned := pruneStamps now stamps
  if pruned.length < RATE_LIMIT_PER_SECOND then (.granted, pruned ++ [now])
  else (.waitFor (max (RATE_LIMIT_WINDOW - (now - pruned.headI)) 0 + jitter), pruned)

/-- Runs a serialized trace of attempts (`(now, jitter)` pairs in the order
the lock admits them) against the shared deque, collecting every granted
timestamp.  Concurrent callers are subsumed because the lock serializes all
deque accesses and `time.monotonic` makes the admitted `now` values
nondecreasing. -/
def rlRun : List (ℚ × ℚ) → List ℚ → List ℚ → List ℚ × List ℚ
  | [], stamps, grants => (stamps, grants)
  | (now, j) :: rest, stamps, grants =>
    match _wait_for_rate_limit_slot_step stamps now j with
    | (.granted, stamps2) => rlRun rest stamps2 (grants ++ [now])
    | (.waitFor _, stamps2) => rlRun rest stamps2 grants

/-- All timestamps granted along a trace of attempts, starting from the
empty process-wide deque. -/
def rlGrants (attempts : List (ℚ × ℚ)) : List ℚ :=
  (rlRun attempts [] []).2

/-- Membership of a timestamp in the trailing window `(t, t + W]`. -/
def inWindow (t g : ℚ) : Bool :=
  decide (t < g) && decide (g ≤ t + RATE_LIMIT_WINDOW)

theorem pruneStamps_decomp (now : ℚ) (stamps : List ℚ) :
    ∃ dropped, stamps = dropped ++ pruneStamps now stamps
      ∧ ∀ x ∈ dropped, RATE_LIMIT_WINDOW ≤ now - x := by
  induction stamps with
  | nil => exact ⟨[], rfl, by simp⟩
  | cons a l ih =>
    by_cases h : RATE_LIMIT_WINDOW ≤ now - a
    · obtain ⟨d, hd, hall⟩ := ih
      refine ⟨a :: d, ?_, ?_⟩
      · simp only [pruneStamps, if_pos h, List.cons_append, List.cons.injEq, true_and]
        exact hd
      · intro x hx
        rcases List.mem_cons.mp hx with rfl | hx
        · exact h
        · exact hall x hx
    · exact ⟨[], by simp [pruneStamps, h], by simp⟩

theorem rlRun_count_le (attempts : List (ℚ × ℚ)) :
    ∀ (stamps grants dropped : List ℚ),
    attempts.Pairwise (fun a b => a.1 ≤ b.1) →
    (∀ g ∈ grants, ∀ a ∈ attempts, g ≤ a.1) →
    grants = dropped ++ stamps →
    (∀ g ∈ dropped, ∀ a ∈ attempts, g + RATE_LIMIT_WINDOW ≤ a.1) →
    (∀ t, grants.countP (inWindow t) ≤ RATE_LIMIT_PER_SECOND) →
    ∀ t, ((rlRun attempts stamps grants).2).countP (inWindow t)
      ≤ RATE_LIMIT_PER_SECOND := by
  induction attempts with
  | nil =>
    intro stamps grants dropped _ _ _ _ hbound t
    simpa [rlRun] using hbound t
  | cons a rest ih =>
    obtain ⟨now, j⟩ := a
    intro stamps grants dropped hsorted hle hdecomp hstale hbound t
    obtain ⟨hhead, hrest⟩ := List.pairwise_cons.mp hsorted
    obtain ⟨d2, hd2, hall2⟩ := pruneStamps_decomp now stamps
    set pruned := pruneStamps now stamps with hpruned
    have hstale2 : ∀ g ∈ dropped ++ d2, ∀ b ∈ rest, g + RATE_LIMIT_WINDOW ≤ b.1 := by
      intro g hg b hb
      rcases List.mem_append.mp hg with hg | hg
      · exact hstale g hg b (List.mem_cons_of_mem _ hb)
      · have h1 : g + RATE_LIMIT_WINDOW ≤ now := by
          have := hall2 g hg
          linarith
        exact le_trans h1 (hhead b hb)
    have hstale_now : ∀ g ∈ dropped ++ d2, g + RATE_LIMIT_WINDOW ≤ now := by
      intro g hg
      rcases List.mem_append.mp hg with hg | hg
      · exact hstale g hg (now, j) (List.mem_cons_self _ _)
      · have := hall2 g hg
        linarith
    by_cases hlen : pruned.length < RATE_LIMIT_PER_SECOND
    · have hstep : _wait_for_rate_limit_slot_step stamps now j
          = (.granted, pruned ++ [now]) := by
        unfold _wait_for_rate_limit_slot_step
        rw [← hpruned]
        simp only [if_pos hlen]
      simp only [rlRun, hstep]
      apply ih (pruned ++ [now]) (grants ++ [now]) (dropped ++ d2) hrest
      · intro g hg b hb
        rcases List.mem_append.mp hg with hg | hg
        · exact hle g hg b (List.mem_cons_of_mem _ hb)
        · rcases List.mem_singleton.mp hg with rfl
          exact hhead b hb
      · rw [hdecomp, hd2]
        simp [List.append_assoc]
      · exact hstale2
      · intro t2
        rw [List.countP_append]
        by_cases hin : inWindow t2 now = true
        · have h1 : List.countP (inWindow t2) [now] = 1 := by
            simp [List.countP_cons, hin]
          rw [h1]
          have hmono : List.countP (inWindow t2) grants
              ≤ List.countP (inWindow (now - RATE_LIMIT_WINDOW)) grants := by
            apply List.countP_mono_left
            intro g hg hgin
            have hg_le_now : g ≤ now := hle g hg (now, j) (List.mem_cons_self _ _)
            simp only [inWindow, Bool.and_eq_true, decide_eq_true_eq] at hin hgin ⊢
            constructor
            · linarith [hin.2, hgin.1]
            · linarith
          have hsplit : List.countP (inWindow (now - RATE_LIMIT_WINDOW)) grants
              = List.countP (inWindow (now - RATE_LIMIT_WINDOW)) (dropped ++ d2)
                + List.countP (inWindow (now - RATE_LIMIT_WINDOW)) pruned := by
            rw [hdecomp, hd2, ← List.append_assoc, List.countP_append]
          have hdrop0 : List.countP (inWindow (now - RATE_LIMIT_WINDOW))
              (dropped ++ d2) = 0 := by
            rw [List.countP_eq_zero]
            intro g hg
            have hg2 := hstale_now g hg
            simp only [inWindow, Bool.and_eq_true, decide_eq_true_eq, not_and, not_le]
            intro hgt
            linarith
          have hplen : List.countP (inWindow (now - RATE_LIMIT_WINDOW)) pruned
              ≤ pruned.length :=
            List.countP_le_length _
          omega
        · have h1 : List.countP (inWindow t2) [now] = 0 := by
            simp [List.countP_cons, hin]
          rw [h1]
          have := hbound t2
          omega
    · have hstep : _wait_for_rate_limit_slot_step stamps now j
          = (.waitFor (max (RATE_LIMIT_WINDOW - (now - pruned.headI)) 0 + j), pruned) := by
        unfold _wait_for_rate_limit_slot_step
        rw [← hpruned]
        simp only [if_neg hlen]
      simp only [rlRun, hstep]
      apply ih pruned grants (dropped ++ d2) hrest
      · intro g hg b hb
        exact hle g hg b (List.mem_cons_of_mem _ hb)
      · rw [hdecomp, hd2, List.append_assoc]
      · exact hstale2
      · exact hbound

/-- C7: the rate-limiter gate never fails — every attempt either grants the
slot or reports a finite sleep — so it only delays; when the pruned deque is
full the computed sleep is the time until the oldest recorded timestamp
exits the window, clamped at zero, plus the drawn jitter (drawn uniformly
from `[RATE_LIMIT_JITTER_LO, RATE_LIMIT_JITTER_HI]` = `[0.05, 0.15]`); and
along every lock-serialized trace of attempts with nondecreasing monotonic
clock readings, at most `RATE_LIMIT_PER_SECOND` = 5 granted timestamps fall
inside any trailing window of `RATE_LIMIT_WINDOW` = 1.0 seconds, across all
concurrent callers. -/
theorem rate_limiter_spec :
    (∀ (stamps : List ℚ) (now jitter : ℚ),
        (∃ stamps2, _wait_for_rate_limit_slot_step stamps now jitter
            = (.granted, stamps2))
        ∨ (∃ d stamps2, _wait_for_rate_limit_slot_step stamps now jitter
            = (.waitFor d, stamps2)))
    ∧ (∀ (stamps : List ℚ) (now jitter : ℚ),
        RATE_LIMIT_JITTER_LO ≤ jitter → jitter ≤ RATE_LIMIT_JITTER_HI →
        RATE_LIMIT_PER_SECOND ≤ (pruneStamps now stamps).length →
        _wait_for_rate_limit_slot_step stamps now jitter
          = (.waitFor (max (RATE_LIMIT_WINDOW - (now - (pruneStamps now stamps).headI)) 0
                + jitter),
             pruneStamps now stamps))
    ∧ (∀ attempts : List (ℚ × ℚ),
        attempts.Pairwise (fun a b => a.1 ≤ b.1) →
        ∀ t : ℚ, (rlGrants attempts).countP (inWindow t) ≤ RATE_LIMIT_PER_SECOND) := by
  refine ⟨?_, ?_, ?_⟩
  · intro stamps now jitter
    by_cases hlen : (pruneStamps now stamps).length < RATE_LIMIT_PER_SECOND
    · refine Or.inl ⟨pruneStamps now stamps ++ [now], ?_⟩
      unfold _wait_for_rate_limit_slot_step
      simp only [if_pos hlen]
    · refine Or.inr ⟨max (RATE_LIMIT_WINDOW - (now - (pruneStamps now stamps).headI)) 0
          + jitter, pruneStamps now stamps, ?_⟩
      unfold _wait_for_rate_limit_slot_step
      simp only [if_neg hlen]
  · intro stamps now jitter _ _ hfull
    unfold _wait_for_rate_limit_slot_step
    rw [if_neg (by omega)]
  · intro attempts hsorted t
    exact rlRun_count_le attempts [] [] [] hsorted (by simp) rfl (by simp)
      (by intro t2; simp [RATE_LIMIT_PER_SECOND]) t

/-! ### Concrete witnesses -/

/-- A minimal raw record used by the witnesses. -/
def wRec (n : String) : JVal := .jobj [("page_name", .jstr n)]

/-- The normalised form of `wRec n`. -/
def wAd (n : String) : NormalisedAd :=
  ⟨"meta", some n, none, none, none, none, none, some "active", none, none⟩

/-- First witness page: two records and a further cursor. -/
def wPage1 : JVal :=
  .jobj [("data", .jlist [wRec "A", wRec "B"]), ("paging", .jobj [("next", .jstr "u2")])]

/-- Second witness page: two records and no cursor. -/
def wPage2 : JVal :=
  .jobj [("data", .jlist [wRec "C", wRec "D"]), ("paging", .jobj [])]

/-- A two-page upstream: page 0 is `wPage1`, every later request `wPage2`. -/
def wUpstream : Nat → PageEvent
  | 0 => .resp ⟨200, some wPage1, ""⟩
  | _ => .resp ⟨200, some wPage2, ""⟩

/-- An upstream whose first page is empty with no cursor. -/
def wEmptyUpstream : Nat → PageEvent :=
  fun _ => .resp ⟨HTTP_OK, some (.jobj [("data", .jlist [])]), "x"⟩

/-- Witness for C1: with two records accumulated, a second page of two more
records under limit 3 stops at once with all four accumulated (its cursor is
never consulted); under limit 10 the same page stops because its cursor is
missing; and the empty first page yields the empty result. -/
theorem fetch_pagination_stop_conditions_witness :
    runLoop wUpstream 3 (1 + 1) ⟨[wRec "A", wRec "B"], .jstr "u2", 1⟩
        = some (.ok [wRec "A", wRec "B", wRec "C", wRec "D"], 1 + 1)
    ∧ runLoop wUpstream 10 (0 + 1) ⟨[wRec "A", wRec "B"], .jstr "u2", 1⟩
        = some (.ok [wRec "A", wRec "B", wRec "C", wRec "D"], 1 + 1)
    ∧ fetch_ads wEmptyUpstream 50 (0 + 1) = some (.ok []) := by
  refine ⟨?_, ?_, ?_⟩
  · exact fetch_pagination_stop_conditions.1 wUpstream 3 1
      ⟨[wRec "A", wRec "B"], .jstr "u2", 1⟩ ⟨200, some wPage2, ""⟩ wPage2
      (.jlist [wRec "C", wRec "D"]) [wRec "C", wRec "D"]
      rfl rfl rfl rfl rfl (by decide)
  · exact fetch_pagination_stop_conditions.2.1 wUpstream 10 0
      ⟨[wRec "A", wRec "B"], .jstr "u2", 1⟩ ⟨200, some wPage2, ""⟩ wPage2
      (.jlist [wRec "C", wRec "D"]) (.jobj []) .jnull [wRec "C", wRec "D"]
      rfl rfl rfl rfl rfl (by decide) rfl rfl rfl
  · exact fetch_pagination_stop_conditions.2.2 wEmptyUpstream 50 0 "x" (by decide) rfl

/-- Witness for C2: the two-page upstream with limit 3 accumulates four
records, truncates to the first three in arrival order, normalises and sorts
exactly those. -/
theorem fetch_truncates_witness :
    fetch_ads wUpstream 3 5 = some (.ok (_sort_ads [wAd "A", wAd "B", wAd "C"]))
    ∧ (List.take 3 [wRec "A", wRec "B", wRec "C", wRec "D"]).length
        = min 3 [wRec "A", wRec "B", wRec "C", wRec "D"].length
    ∧ List.take 3 [wRec "A", wRec "B", wRec "C", wRec "D"]
        ++ List.drop 3 [wRec "A", wRec "B", wRec "C", wRec "D"]
        = [wRec "A", wRec "B", wRec "C", wRec "D"] :=
  fetch_truncates_before_normalise_and_sort wUpstream 3 5 2
    [wRec "A", wRec "B", wRec "C", wRec "D"] [wAd "A", wAd "B", wAd "C"] rfl rfl

/-- An upstream whose second request times out. -/
def wTmoUpstream : Nat → PageEvent
  | 0 => .resp ⟨200, some wPage1, ""⟩
  | _ => .tmo "ReadTimeout"

/-- Witness for C9: a read timeout on the second page makes the loop fail at
once with the timeout error and `fetch_ads` surfaces it with no data,
discarding the two records of the first page. -/
theorem fetch_timeout_witness :
    runLoop wTmoUpstream 50 (0 + 1) ⟨[wRec "A", wRec "B"], .jstr "u2", 1⟩
        = some (.error (.timeoutError "ReadTimeout"), 1)
    ∧ fetch_ads wTmoUpstream 50 5 = some (.error (.timeoutError "ReadTimeout")) := by
  constructor
  · exact fetch_timeout_aborts_discarding_partial.1 wTmoUpstream 50 0
      ⟨[wRec "A", wRec "B"], .jstr "u2", 1⟩ "ReadTimeout" rfl
  · exact fetch_timeout_aborts_discarding_partial.2 wTmoUpstream 50 5 1 "ReadTimeout" rfl

/-- An upstream whose second request answers 400 with a structured error. -/
def wErrUpstream : Nat → PageEvent
  | 0 => .resp ⟨200, some wPage1, ""⟩
  | _ => .resp ⟨400, some (.jobj [("error",
      .jobj [("code", .jnum 190), ("message", .jstr "Token expired")])]), ""⟩

/-- An upstream whose first page succeeds with two records and whose second
request answers 400 with a body that parses as the JSON array `[]`. -/
def wErrArrayUpstream : Nat → PageEvent
  | 0 => .resp ⟨200, some wPage1, ""⟩
  | _ => .resp ⟨400, some (.jlist []), "[]"⟩

/-- C10 counterexample: a non-success status on the second page, after a
successful first page accumulated two records, does not always raise the
upstream error — with the JSON-array body `[]` the escaping exception is an
`AttributeError` from `payload.get("error", {})`, not a `MetaAPIError`
(though no partial data is returned either way). -/
theorem fetch_api_error_after_pages_counterexample :
    fetch_ads wErrArrayUpstream 50 5 = some (.error (.pyError "AttributeError"))
    ∧ isApiError (.pyError "AttributeError") = false :=
  ⟨rfl, rfl⟩

/-- Witness for the amended C10: with two records already accumulated, a 400
with a well-shaped error body raises the upstream error at once and
`fetch_ads` returns it with no data; the same 400 with a JSON-array body
makes the `AttributeError` escape, again with no data. -/
theorem fetch_api_error_discards_partial_witness :
    runLoop wErrUpstream 50 (0 + 1) ⟨[wRec "A", wRec "B"], .jstr "u2", 1⟩
        = some (.error (.apiError 400 (.jnum 190) (.jstr "Token expired")), 1 + 1)
    ∧ runLoop wErrArrayUpstream 50 (0 + 1) ⟨[wRec "A", wRec "B"], .jstr "u2", 1⟩
        = some (.error (.pyError "AttributeError"), 1 + 1)
    ∧ fetch_ads wErrUpstream 50 5
        = some (.error (.apiError 400 (.jnum 190) (.jstr "Token expired")))
    ∧ fetch_ads wErrArrayUpstream 50 7 = some (.error (.pyError "AttributeError")) := by
  refine ⟨?_, ?_, ?_, ?_⟩
  · exact fetch_api_error_discards_partial.1 wErrUpstream 50 0
      ⟨[wRec "A", wRec "B"], .jstr "u2", 1⟩
      ⟨400, some (.jobj [("error",
        .jobj [("code", .jnum 190), ("message", .jstr "Token expired")])]), ""⟩
      (.jnum 190) (.jstr "Token expired") rfl (by decide) rfl (List.cons_ne_nil _ _)
  · exact fetch_api_error_discards_partial.2.1 wErrArrayUpstream 50 0
      ⟨[wRec "A", wRec "B"], .jstr "u2", 1⟩ ⟨400, some (.jlist []), "[]"⟩
      "AttributeError" rfl (by decide) rfl (List.cons_ne_nil _ _)
  · exact fetch_api_error_discards_partial.2.2.1 wErrUpstream 50 5 2 400
      (.jnum 190) (.jstr "Token expired") rfl
  · exact fetch_api_error_discards_partial.2.2.2 wErrArrayUpstream 50 7 2
      "AttributeError" rfl

/-- An upstream that always answers 400 with the structured token error of
the end-to-end scenario in the spec. -/
def c8OkUpstream : Nat → PageEvent :=
  fun _ => .resp ⟨400, some (.jobj [("error",
      .jobj [("code", .jnum 190), ("message", .jstr "Token expired")])]), ""⟩

/-- Witness for the amended C8: the spec scenario
`400 {"error": {"code": 190, "message": "Token expired"}}` produces
`MetaAPIError(status=400, code=190, message="Token expired")`; an
unparseable body falls back to the raw text, and a missing `error` member
falls back to the default message. -/
theorem fetch_api_error_structured_witness :
    runLoop c8OkUpstream 50 (0 + 1) initState
        = some (.error (.apiError 400 (.jnum 190) (.jstr "Token expired")), 0 + 1)
    ∧ parseApiError ⟨400, some (.jobj [("error",
        .jobj [("code", .jnum 190), ("message", .jstr "Token expired")])]), ""⟩
        = .ok ((List.lookup "code"
                  [("code", .jnum 190), ("message", .jstr "Token expired")]).getD .jnull,
               (List.lookup "message"
                  [("code", .jnum 190), ("message", .jstr "Token expired")]).getD
                  (.jstr "Meta API error"))
    ∧ parseApiError ⟨500, none, "oops"⟩
        = .ok (.jnull, .jstr (HttpResponse.text ⟨500, none, "oops"⟩))
    ∧ parseApiError ⟨500, some (.jobj []), ""⟩ = .ok (.jnull, .jstr "Meta API error")
    ∧ fetch_ads c8OkUpstream 50 1
        = some (.error (.apiError 400 (.jnum 190) (.jstr "Token expired"))) := by
  refine ⟨?_, ?_, ?_, ?_, ?_⟩
  · exact fetch_api_error_structured.1 c8OkUpstream 50 0 initState
      ⟨400, some (.jobj [("error",
        .jobj [("code", .jnum 190), ("message", .jstr "Token expired")])]), ""⟩
      (.jnum 190) (.jstr "Token expired") rfl (by decide) rfl
  · exact fetch_api_error_structured.2.1
      ⟨400, some (.jobj [("error",
        .jobj [("code", .jnum 190), ("message", .jstr "Token expired")])]), ""⟩
      [("error", .jobj [("code", .jnum 190), ("message", .jstr "Token expired")])]
      [("code", .jnum 190), ("message", .jstr "Token expired")] rfl rfl
  · exact fetch_api_error_structured.2.2.1 ⟨500, none, "oops"⟩ rfl
  · exact fetch_api_error_structured.2.2.2.1 ⟨500, some (.jobj []), ""⟩ [] rfl rfl
  · exact fetch_api_error_structured.2.2.2.2 c8OkUpstream 50 1 1 400
      (.jnum 190) (.jstr "Token expired") rfl

/-- Witness for C7: with five zero timestamps recorded, an attempt at time 0
with jitter 0.1 must wait for the full window plus the jitter; and a short
sorted trace of attempts respects the window bound. -/
theorem rate_limiter_spec_witness :
    _wait_for_rate_limit_slot_step [0, 0, 0, 0, 0] 0 (1 / 10)
      = (.waitFor (max (RATE_LIMIT_WINDOW - (0 - (pruneStamps 0 [0, 0, 0, 0, 0]).headI)) 0
            + 1 / 10),
         pruneStamps 0 [0, 0, 0, 0, 0])
    ∧ (rlGrants [(0, 1 / 10), (1 / 4, 1 / 10)]).countP (inWindow 0)
        ≤ RATE_LIMIT_PER_SECOND := by
  constructor
  · exact rate_limiter_spec.2.1 [0, 0, 0, 0, 0] 0 (1 / 10)
      (by norm_num [RATE_LIMIT_JITTER_LO])
      (by norm_num [RATE_LIMIT_JITTER_HI])
      (by norm_num [pruneStamps, RATE_LIMIT_WINDOW, RATE_LIMIT_PER_SECOND])
  · exact rate_limiter_spec.2.2 [(0, 1 / 10), (1 / 4, 1 / 10)]
      (by norm_num [List.pairwise_cons]) 0
